import Mathlib

/-!
Shallow embedding of the GEOCUBA portal HTTP server (src/server.js, with the
near-duplicate variant src/middleware.js noted where it differs).

The server is an Express application: an ordered middleware pipeline
(CORS, security headers, path whitelist, load shedding, JSON body parsing
with a 1 KB cap, an API-scoped rate limiter, a request timeout guard,
static file serving) followed by a fixed set of route handlers backed by a
PostgreSQL pool, plus a transport-level per-IP connection tracker attached
to the HTTP server object.

Conventions of the embedding:
- a database row is an association list of column name to value (the pg
  driver returns rows as objects; values are abstracted to strings);
- the database is an oracle in the environment: a function from an abstract
  query descriptor to rows, plus a failure oracle (a query either throws or
  returns rows);
- each middleware is a function from the environment, the request and the
  response headers accumulated so far to a step result: pass on, respond,
  or raise an error that Express dispatches to the error-handling
  middleware (the final app.use with four arguments in server.js, which
  always answers 500 with a generic JSON body);
- the pipeline runner also returns the ordered list of names of the stages
  that actually executed, so that claims of the form "no downstream handler
  executes" are statements about that trace.
-/

namespace GeocubaPortal

/-- Is the first character list a leading segment of the second?
Structural version of list prefix testing, used to model the anchored
regex tests and the JS startsWith checks on paths. -/
def listLead : List Char → List Char → Bool
  | [], _ => true
  | _ :: _, [] => false
  | a :: as, b :: bs => a == b && listLead as bs

/-- Does the string p start with the string pat? -/
def strStarts (p pat : String) : Bool := listLead pat.data p.data

/-- Does the string p end with the string pat? -/
def strEnds (p pat : String) : Bool := listLead pat.data.reverse p.data.reverse

/-- A database row: column name / value pairs, as returned by the pg driver. -/
abbrev Row := List (String × String)

/-- Field access on a row, with a default for an absent column
(JS property access returning undefined is abstracted by the default). -/
def rowGetD (r : Row) (k : String) (d : String) : String :=
  match r.find? (fun p => p.1 == k) with
  | some p => p.2
  | none => d

/-- The characters removed by the JS String.prototype.trim: ECMAScript
WhiteSpace - tab 0x09, vertical tab 0x0b, form feed 0x0c, space 0x20,
no-break space 0xa0, zero-width no-break space 0xfeff, and the Unicode
space separators 0x1680, 0x2000 to 0x200a, 0x202f, 0x205f, 0x3000 - plus
the line terminators LF 0x0a, CR 0x0d, line separator 0x2028 and
paragraph separator 0x2029. -/
def jsWhitespace (c : Char) : Bool :=
  c.toNat == 9 || c.toNat == 10 || c.toNat == 11 || c.toNat == 12 || c.toNat == 13 ||
  c.toNat == 32 || c.toNat == 160 || c.toNat == 5760 ||
  (8192 ≤ c.toNat && c.toNat ≤ 8202) ||
  c.toNat == 8232 || c.toNat == 8233 || c.toNat == 8239 || c.toNat == 8287 ||
  c.toNat == 12288 || c.toNat == 65279

/-- Abstract descriptors for the SQL statements issued by the handlers in
src/server.js. Parameterized statements carry their parameter; the generic
query endpoint forwards the raw client-supplied SQL string. -/
inductive Query where
  | presentacion
  | noticiasDestacadas
  | services
  | preguntas
  | empresas
  | empresasDetails
  | eventos
  | noticias
  | noticiaById (id : String)
  | serviceByName (nombre : String)
  | lineasByServicio (servicioid : String)
  | raw (sql : String)
deriving DecidableEq

/-- Response bodies, by shape: plain text, a JSON object with a single
error field, a JSON array of rows, a single JSON row object, the composite
service object of GET /api/get-service/:nombre, and the config object of
GET /api/config. -/
inductive RespBody where
  | textBody (s : String)
  | jsonError (msg : String)
  | jsonRows (rows : List Row)
  | jsonRow (r : Row)
  | jsonServiceLines (service : Row) (productLines : List Row)
  | jsonConfig (host : String)
deriving DecidableEq

/-- Is the body a JSON object with a single error string field? -/
def isJsonErrorBody : RespBody → Bool
  | RespBody.jsonError _ => true
  | _ => false

structure Response where
  status : Nat
  body : RespBody
  headers : List (String × String)
deriving DecidableEq

/-- An HTTP request as the pipeline sees it. The JSON body field named
query (used only by POST /api/query) is encoded as:
none = absent, some none = present but not a string (or null),
some (some s) = the string s. -/
structure Request where
  method : String
  path : String
  ip : String
  host : String
  bodySize : Nat
  bodyQueryField : Option (Option String)
deriving DecidableEq

/-- Per-request environment: admission state and oracles.
hits is the number of requests already counted for the client IP in the
current rate-limit window; maxHits is the configured ceiling (500 in
src/server.js, 100 in src/middleware.js); elapsedAtGuard is the wall time
elapsed when the timedout guard middleware runs (0 in reality, since all
stages before a handler are synchronous); budget is the connect-timeout
budget in milliseconds (10000); handlerDuration is the time the matched
route handler takes to produce its result. -/
structure Env where
  busy : Bool
  hits : Nat
  maxHits : Nat
  elapsedAtGuard : Int
  budget : Int
  handlerDuration : Int
  dbRows : Query → List Row
  dbFails : Query → Bool
  staticFiles : String → Option String

/-- Result of one middleware: pass on with possibly extended response
headers, respond, or pass an error to the error-handling middleware
(the Express next(err) path). -/
inductive StepResult where
  | next (headers : List (String × String))
  | respond (r : Response)
  | raise (errStatus : Nat) (headers : List (String × String))

abbrev Middleware := Env → Request → List (String × String) → StepResult

/-- The global error handling middleware of src/server.js (line 358):
it ignores the status attached to the error and always answers 500 with a
generic JSON error object. -/
def globalErrorHandler (hs : List (String × String)) : Response :=
  { status := 500, body := RespBody.jsonError "Internal server error.", headers := hs }

/-- Run named middlewares in order. When none is left, Express answers its
default 404 with a plain-text Cannot METHOD path body. The second component
is the ordered list of the names of the stages that executed. -/
def runStages : List (String × Middleware) → Env → Request → List (String × String) →
    Response × List String
  | [], _, req, hs =>
    ({ status := 404, body := RespBody.textBody ("Cannot " ++ req.method ++ " " ++ req.path),
       headers := hs }, [])
  | (n, m) :: rest, env, req, hs =>
    match m env req hs with
    | StepResult.respond r => (r, [n])
    | StepResult.raise _ hs2 => (globalErrorHandler hs2, [n])
    | StepResult.next hs2 =>
      let rt := runStages rest env req hs2
      (rt.1, n :: rt.2)

/-- app.use(cors()) at src/server.js line 26. With its default options the
cors package adds the Access-Control-Allow-Origin header and intercepts
every OPTIONS (preflight) request, ending it itself with status 204 and an
empty body (preflightContinue false, optionsSuccessStatus 204) before any
later middleware runs; every non-OPTIONS request passes through. -/
def corsMw : Middleware := fun _ req hs =>
  if req.method == "OPTIONS" then
    StepResult.respond
      { status := 204, body := RespBody.textBody "",
        headers := hs ++ [("Access-Control-Allow-Origin", "*")] }
  else
    StepResult.next (hs ++ [("Access-Control-Allow-Origin", "*")])

/-- The Content-Security-Policy value set at src/server.js line 33.
The source wraps the keyword tokens self and unsafe-inline in single
quotes as CSP syntax requires; the quotes are omitted in this string. -/
def cspValue : String :=
  "default-src self; script-src self unsafe-inline; style-src self unsafe-inline https://fonts.googleapis.com; font-src self https://fonts.gstatic.com; img-src self data: https:; connect-src self; frame-src https://*.google.com https://www.google.com"

/-- The security-headers middleware (src/server.js lines 29 to 35):
unconditionally sets X-Frame-Options and Content-Security-Policy. -/
def securityHeadersMw : Middleware := fun _ _ hs =>
  StepResult.next (hs ++ [("X-Frame-Options", "SAMEORIGIN"), ("Content-Security-Policy", cspValue)])

/-- Extensions allowed under /assets by the whitelist regex. -/
def assetExts : List String :=
  ["css", "js", "png", "jpg", "jpeg", "gif", "svg", "woff", "woff2", "ttf", "eot", "ico"]

/-- Boolean translation of a regex of the shape caret pre .+ backslash-dot
(e1|e2|...) dollar: the path starts with pre, ends with a dot and one of the
extensions, and has at least one character between the two. -/
def extPattern (pre : String) (exts : List String) (p : String) : Bool :=
  strStarts p pre && exts.any (fun e =>
    strEnds p ("." ++ e) && pre.length + 1 + 1 + e.length ≤ p.length)

/-- The whitelist patterns of src/server.js lines 42 to 61, as a decidable
predicate on the request path. -/
def allowedPath (p : String) : Bool :=
  p == "/" || p == "/index.html" || p == "/noticias.html" || p == "/eventos.html" ||
  p == "/servicios.html" || p == "/empresas.html" ||
  (strStarts p "/api/" && 6 ≤ p.length) ||
  extPattern "/assets/" assetExts p ||
  extPattern "/js/" ["js"] p ||
  extPattern "/css/" ["css"] p ||
  p == "/favicon.ico"

/-- The whitelist-based security middleware (src/server.js lines 38 to 72):
a non-matching path terminates with 403 and the plain-text body
Access Forbidden; a matching path passes through unchanged. -/
def whitelistMw : Middleware := fun _ req hs =>
  if allowedPath req.path then StepResult.next hs
  else StepResult.respond { status := 403, body := RespBody.textBody "Access Forbidden", headers := hs }

/-- The toobusy load-shedding middleware (src/server.js lines 76 to 82). -/
def toobusyMw : Middleware := fun env _ hs =>
  if env.busy then
    StepResult.respond
      { status := 503,
        body := RespBody.jsonError "Server is too busy. Please try again later.",
        headers := hs }
  else StepResult.next hs

/-- The body size cap of express.json at src/server.js line 85: 1kb. -/
def jsonBodyLimit : Nat := 1024

/-- The body-parsing layer (express.json with limit 1kb). On an oversized
body, body-parser aborts parsing and passes an entity-too-large error with
status 413 to next(err); Express then dispatches it to the error-handling
middleware, skipping every remaining regular middleware and route. -/
def bodyParserMw : Middleware := fun _ req hs =>
  if jsonBodyLimit < req.bodySize then StepResult.raise 413 hs
  else StepResult.next hs

/-- The message option of the rate limiter at src/server.js line 93.
express-rate-limit sends a string message with res.send, so the 429
response body is this plain text, not a JSON object. -/
def limiterMessage : String := "Too many requests from this IP, please try again later."

/-- The rate limiter, mounted at /api/ (src/server.js lines 89 to 95):
for an API path, the request is counted (hits + 1) and rejected with 429
once the count exceeds the ceiling; non-API paths are not touched. -/
def limiterMw : Middleware := fun env req hs =>
  if strStarts req.path "/api/" then
    if env.maxHits < env.hits + 1 then
      StepResult.respond { status := 429, body := RespBody.textBody limiterMessage, headers := hs }
    else StepResult.next hs
  else StepResult.next hs

/-- One step of the express-rate-limit per-IP window counter: every request
in the window increments the counter by one. -/
def limiterIncr (hits : Nat) : Nat := hits + 1

/-- Does the limiter let a request through, given the count of requests
already made in the window? The request itself is counted first. -/
def limiterAllows (maxHits hits : Nat) : Bool := hits + 1 ≤ maxHits

/-- The per-IP counter after n requests of the same window, starting from a
fresh window. -/
def hitsAfterRequests : Nat → Nat
  | 0 => 0
  | n + 1 => limiterIncr (hitsAfterRequests n)

/-- The guard middleware after app.use(timeout) (src/server.js lines 99 to
102): if req.timedout is already set when this middleware runs, answer 408;
otherwise pass on. req.timedout is set by connect-timeout once budget
milliseconds have elapsed, so at this stage it holds exactly when the time
already elapsed reaches the budget. -/
def timeoutGuardMw : Middleware := fun env _ hs =>
  if env.budget ≤ env.elapsedAtGuard then
    StepResult.respond
      { status := 408,
        body := RespBody.jsonError "Request timed out. Please try again.",
        headers := hs }
  else StepResult.next hs

/-- The HTML template-variable injector (src/server.js lines 107 to 127):
monkey-patches res.send to substitute SERVER and PORT placeholders in HTML
bodies. It never blocks and never responds; modelled as a pass-through. -/
def htmlInjectorMw : Middleware := fun _ _ hs => StepResult.next hs

/-- The four express.static mounts (src/server.js lines 130 to 133),
collapsed into one lookup keyed by the full request path. express.static
serves GET requests for existing files and passes everything else on. -/
def staticMw : Middleware := fun env req hs =>
  if req.method == "GET" then
    match env.staticFiles req.path with
    | some content => StepResult.respond { status := 200, body := RespBody.textBody content, headers := hs }
    | none => StepResult.next hs
  else StepResult.next hs

/-- The routes registered on the app in src/server.js. -/
inductive Route where
  | config
  | getPresentacion
  | getNoticiasDestacadas
  | getServices
  | getPreguntasFrecuentes
  | getEmpresas
  | getEmpresasDetails
  | getEventos
  | getNoticias
  | getNoticia (id : String)
  | getService (nombre : String)
  | postQuery
deriving DecidableEq

/-- Match one path parameter the way an Express route pattern of the form
prefix/:param does: the remainder after the literal prefix must be a single
non-empty segment (no further slash). -/
def paramTail (pre p : String) : Option String :=
  let rest := p.drop pre.length
  if strStarts p pre && 0 < rest.length && !rest.data.any (fun c => c == '/') then some rest
  else none

/-- Express route dispatch for the routes of src/server.js. -/
def matchRoute (req : Request) : Option Route :=
  if req.method == "GET" && req.path == "/api/config" then some Route.config
  else if req.method == "GET" && req.path == "/api/get-presentacion" then some Route.getPresentacion
  else if req.method == "GET" && req.path == "/api/get-noticias-destacadas" then some Route.getNoticiasDestacadas
  else if req.method == "GET" && req.path == "/api/get-services" then some Route.getServices
  else if req.method == "GET" && req.path == "/api/get-preguntas-frecuentes" then some Route.getPreguntasFrecuentes
  else if req.method == "GET" && req.path == "/api/get-empresas" then some Route.getEmpresas
  else if req.method == "GET" && req.path == "/api/get-empresas-details" then some Route.getEmpresasDetails
  else if req.method == "GET" && req.path == "/api/get-eventos" then some Route.getEventos
  else if req.method == "GET" && req.path == "/api/get-noticias" then some Route.getNoticias
  else if req.method == "GET" then
    match paramTail "/api/get-service/" req.path with
    | some nombre => some (Route.getService nombre)
    | none =>
      match paramTail "/api/get-noticia/" req.path with
      | some id => some (Route.getNoticia id)
      | none => none
  else if req.method == "POST" && req.path == "/api/query" then some Route.postQuery
  else none

/-- The common shape of the simple read-only handlers: one query; on a
thrown query the catch block answers 500 with the JSON error message of
that handler; on success, 200 with the rows as a JSON array. The second
component is the list of queries issued. -/
def simpleQueryRoute (env : Env) (hs : List (String × String)) (q : Query) (errMsg : String) :
    Response × List Query :=
  if env.dbFails q then
    ({ status := 500, body := RespBody.jsonError errMsg, headers := hs }, [q])
  else
    ({ status := 200, body := RespBody.jsonRows (env.dbRows q), headers := hs }, [q])

/-- GET /api/get-service/:nombre (src/server.js lines 242 to 273): resolve
the service by name; zero rows answers 404 with error Service not found and
issues no second query; otherwise a second query fetches the product lines
keyed by the id field of the first returned row, and the response is the
single JSON object with the two fields service and productLines. Either
query throwing is caught and answered 500 Database error. -/
def getServiceHandler (env : Env) (hs : List (String × String)) (nombre : String) :
    Response × List Query :=
  if env.dbFails (Query.serviceByName nombre) then
    ({ status := 500, body := RespBody.jsonError "Database error.", headers := hs },
     [Query.serviceByName nombre])
  else
    match env.dbRows (Query.serviceByName nombre) with
    | [] =>
      ({ status := 404, body := RespBody.jsonError "Service not found", headers := hs },
       [Query.serviceByName nombre])
    | service :: _ =>
      if env.dbFails (Query.lineasByServicio (rowGetD service "id" "")) then
        ({ status := 500, body := RespBody.jsonError "Database error.", headers := hs },
         [Query.serviceByName nombre, Query.lineasByServicio (rowGetD service "id" "")])
      else
        ({ status := 200,
           body := RespBody.jsonServiceLines service
             (env.dbRows (Query.lineasByServicio (rowGetD service "id" ""))),
           headers := hs },
         [Query.serviceByName nombre, Query.lineasByServicio (rowGetD service "id" "")])

/-- GET /api/get-noticia/:id (src/server.js lines 317 to 337). -/
def getNoticiaHandler (env : Env) (hs : List (String × String)) (id : String) :
    Response × List Query :=
  if env.dbFails (Query.noticiaById id) then
    ({ status := 500, body := RespBody.jsonError "Error al obtener la noticia", headers := hs },
     [Query.noticiaById id])
  else
    match env.dbRows (Query.noticiaById id) with
    | [] =>
      ({ status := 404, body := RespBody.jsonError "Noticia no encontrada", headers := hs },
       [Query.noticiaById id])
    | row :: _ =>
      ({ status := 200, body := RespBody.jsonRow row, headers := hs }, [Query.noticiaById id])

/-- POST /api/query (src/server.js lines 340 to 355). The JS validation is
if (not query or typeof query is not string or query.trim().length is 0):
an absent, non-string, empty or whitespace-only query field answers 400
with no database call; otherwise the string is forwarded verbatim to
pool.query and the resulting rows are answered as a JSON array. The first
disjunct models the JS falsiness of the empty string, the second the
emptiness of the trimmed string (every character is JS whitespace). -/
def postQueryHandler (env : Env) (hs : List (String × String))
    (body : Option (Option String)) : Response × List Query :=
  match body with
  | some (some s) =>
    if s.data.isEmpty || s.data.all jsWhitespace then
      ({ status := 400, body := RespBody.jsonError "Invalid query.", headers := hs }, [])
    else if env.dbFails (Query.raw s) then
      ({ status := 500, body := RespBody.jsonError "Database error.", headers := hs },
       [Query.raw s])
    else
      ({ status := 200, body := RespBody.jsonRows (env.dbRows (Query.raw s)), headers := hs },
       [Query.raw s])
  | _ => ({ status := 400, body := RespBody.jsonError "Invalid query.", headers := hs }, [])

/-- Dispatch a matched route to its handler. -/
def runRoute (env : Env) (req : Request) (hs : List (String × String)) :
    Route → Response × List Query
  | Route.config => ({ status := 200, body := RespBody.jsonConfig req.host, headers := hs }, [])
  | Route.getPresentacion => simpleQueryRoute env hs Query.presentacion "Database error."
  | Route.getNoticiasDestacadas => simpleQueryRoute env hs Query.noticiasDestacadas "Database error."
  | Route.getServices => simpleQueryRoute env hs Query.services "Database error."
  | Route.getPreguntasFrecuentes => simpleQueryRoute env hs Query.preguntas "Database error."
  | Route.getEmpresas => simpleQueryRoute env hs Query.empresas "Database error."
  | Route.getEmpresasDetails => simpleQueryRoute env hs Query.empresasDetails "Database error."
  | Route.getEventos => simpleQueryRoute env hs Query.eventos "Error al obtener los eventos"
  | Route.getNoticias => simpleQueryRoute env hs Query.noticias "Error al obtener las noticias"
  | Route.getNoticia id => getNoticiaHandler env hs id
  | Route.getService nombre => getServiceHandler env hs nombre
  | Route.postQuery => postQueryHandler env hs req.bodyQueryField

/-- The route stage. connect-timeout semantics for a matched handler that
is still running when the budget expires: the library (with its default
respond option) sets req.timedout and invokes the next function saved at
its own pipeline position with a 503 response-timeout error, which Express
dispatches to the error-handling middleware. The guard middleware that
would answer 408 sits earlier in the pipeline and has already passed by
then, so it never sees the expiry. A handler that finishes within the
budget responds normally. -/
def routeMw : Middleware := fun env req hs =>
  match matchRoute req with
  | none => StepResult.next hs
  | some r =>
    if env.budget < env.handlerDuration then StepResult.raise 503 hs
    else StepResult.respond (runRoute env req hs r).1

/-- The middleware pipeline of src/server.js in registration order
(lines 26, 29, 38, 76, 85, 89, 98, 107, 130 and the routes). -/
def serverStages : List (String × Middleware) :=
  [("cors", corsMw),
   ("securityHeaders", securityHeadersMw),
   ("whitelist", whitelistMw),
   ("toobusy", toobusyMw),
   ("bodyParser", bodyParserMw),
   ("limiter", limiterMw),
   ("timeoutGuard", timeoutGuardMw),
   ("htmlInjector", htmlInjectorMw),
   ("static", staticMw),
   ("routes", routeMw)]

/-- Process one request through the whole server.js pipeline, returning the
response and the ordered list of executed stage names. -/
def handleRequest (env : Env) (req : Request) : Response × List String :=
  runStages serverStages env req []

/-! ## Connection tracker (src/server.js lines 387 to 426)

JS Map values for the per-IP active connection count are modelled as
Option Int inside the map: some c is an ordinary number, none is NaN (which
arises in JS from undefined - 1 or NaN - 1 on the close path when no entry
exists; it never arises for well-formed socket traces). An absent map entry
is the outer none. -/

def MAX_CONNECTIONS_PER_IP : Int := 50

def MAX_QUEUE_SIZE : Nat := 400

structure ConnState where
  activeConnections : String → Option (Option Int)
  requestQueue : String → Option (List Int)

/-- Pointwise update of a map modelled as a function. -/
def fupd {α : Type} (m : String → Option α) (k : String) (v : Option α) :
    String → Option α :=
  fun x => if x == k then v else m x

/-- The JS expression (map.get(ip) or-else 0): undefined and NaN are falsy
and give 0; an ordinary number gives itself (0 gives 0 either way). -/
def jsOr0 : Option (Option Int) → Int
  | none => 0
  | some none => 0
  | some (some v) => v

/-- The prune loop: while queue is non-empty and its head is older than
60 seconds, shift it off the front. -/
def pruneOld (now : Int) (q : List Int) : List Int :=
  q.dropWhile (fun t => decide (t < now - 60000))

/-- The connection event handler of src/server.js lines 392 to 415, in
source order: increment the count for the IP, create the queue entry if
absent and push the current time, then destroy the socket if the count
exceeds MAX_CONNECTIONS_PER_IP or the queue length (before pruning)
exceeds MAX_QUEUE_SIZE, and only then prune entries older than 60 seconds
from the front of the queue. The boolean is whether socket.destroy ran. -/
def onConnection (st : ConnState) (ip : String) (now : Int) : ConnState × Bool :=
  let newCount := jsOr0 (st.activeConnections ip) + 1
  let ac := fupd st.activeConnections ip (some (some newCount))
  let q0 := match st.requestQueue ip with
    | some q => q
    | none => []
  let q1 := q0 ++ [now]
  let destroyed := decide (MAX_CONNECTIONS_PER_IP < newCount) || decide (MAX_QUEUE_SIZE < q1.length)
  let q2 := pruneOld now q1
  ({ activeConnections := ac, requestQueue := fupd st.requestQueue ip (some q2) }, destroyed)

/-- The destruction condition as the claim states it (for comparison with
the source behaviour): the incremented count exceeds the cap, or the length
of the queue after appending the current time and pruning entries older
than 60 seconds exceeds MAX_QUEUE_SIZE. -/
def specDestroyCondition (st : ConnState) (ip : String) (now : Int) : Bool :=
  let newCount := jsOr0 (st.activeConnections ip) + 1
  let q1 := (match st.requestQueue ip with
    | some q => q
    | none => []) ++ [now]
  decide (MAX_CONNECTIONS_PER_IP < newCount) || decide (MAX_QUEUE_SIZE < (pruneOld now q1).length)

/-- The close handler of src/server.js lines 417 to 425. JS comparison
count less-or-equal 1 is false for undefined and NaN, so those fall into
the else branch and store NaN (count minus 1); for well-formed traces the
entry is always an ordinary positive number here. -/
def onClose (st : ConnState) (ip : String) : ConnState :=
  match st.activeConnections ip with
  | some (some c) =>
    if c ≤ 1 then { st with activeConnections := fupd st.activeConnections ip none }
    else { st with activeConnections := fupd st.activeConnections ip (some (some (c - 1))) }
  | some none => { st with activeConnections := fupd st.activeConnections ip (some none) }
  | none => { st with activeConnections := fupd st.activeConnections ip (some none) }

/-- Transport-level socket lifecycle events. -/
inductive Ev where
  | conn (ip : String) (now : Int)
  | close (ip : String)
deriving DecidableEq

def connStep (st : ConnState) : Ev → ConnState
  | Ev.conn ip now => (onConnection st ip now).1
  | Ev.close ip => onClose st ip

def connRun (st : ConnState) : List Ev → ConnState
  | [] => st
  | e :: evs => connRun (connStep st e) evs

/-- Number of occurrences of an IP in the multiset of currently open
sockets (kept as a list). -/
def countIp (ip : String) : List String → Nat
  | [] => 0
  | x :: xs => (if x == ip then 1 else 0) + countIp ip xs

/-- Is some socket of this IP open? -/
def hasIp (ip : String) : List String → Bool
  | [] => false
  | x :: xs => x == ip || hasIp ip xs

/-- Remove one open socket of the given IP. -/
def removeOne (ip : String) : List String → List String
  | [] => []
  | x :: xs => if x == ip then xs else x :: removeOne ip xs

/-- Well-formed socket traces relative to a multiset of already-open
sockets: a close event always closes some currently open socket, and each
open socket closes at most once. -/
def validFrom : List String → List Ev → Bool
  | _, [] => true
  | opens, Ev.conn ip _ :: evs => validFrom (ip :: opens) evs
  | opens, Ev.close ip :: evs => hasIp ip opens && validFrom (removeOne ip opens) evs

/-- The multiset of open sockets after a trace. -/
def openAfter : List String → List Ev → List String
  | opens, [] => opens
  | opens, Ev.conn ip _ :: evs => openAfter (ip :: opens) evs
  | opens, Ev.close ip :: evs => openAfter (removeOne ip opens) evs

/-- The map value the tracker should hold for an IP with n open sockets:
absent when n is 0, the ordinary number n otherwise. -/
def countVal (n : Nat) : Option (Option Int) :=
  if 0 < n then some (some (n : Int)) else none

/-- Decidable statement of the tracker invariant for one map entry, given
the number of currently open sockets of that IP: the entry is absent
exactly when the count returned to 0, is never NaN, and otherwise stores
exactly the (positive) number of open sockets. -/
def entryOk : Option (Option Int) → Nat → Bool
  | none, n => n == 0
  | some none, _ => false
  | some (some c), n => decide (0 < c) && c == (n : Int)

/-- The tracker state at process start. -/
def initConnState : ConnState :=
  { activeConnections := fun _ => none, requestQueue := fun _ => none }

/-! ## Concrete inputs used by counterexamples and witnesses -/

def env0 : Env :=
  { busy := false, hits := 0, maxHits := 500, elapsedAtGuard := 0, budget := 10000,
    handlerDuration := 0, dbRows := fun _ => [], dbFails := fun _ => false,
    staticFiles := fun _ => none }

def envSlow : Env := { env0 with handlerDuration := 11000 }

def env429 : Env := { env0 with hits := 500 }

def serviceRowW : Row :=
  [("id", "7"), ("nombre", "geodesia"), ("descripcion", "d"), ("contacto", "c"),
   ("img", "i"), ("img2", "j")]

def lineaRowW : Row :=
  [("id", "1"), ("titulo", "t"), ("descripcion", "d"), ("img", "i")]

def envW : Env :=
  { env0 with
    dbRows := fun q =>
      match q with
      | Query.serviceByName "geodesia" => [serviceRowW]
      | Query.lineasByServicio "7" => [lineaRowW]
      | _ => [] }

def reqSecret : Request :=
  { method := "GET", path := "/secret", ip := "203.0.113.5", host := "localhost:8060",
    bodySize := 0, bodyQueryField := none }

def reqPresentacion : Request := { reqSecret with path := "/api/get-presentacion" }

def reqServices : Request := { reqSecret with path := "/api/get-services" }

def reqBigBody : Request :=
  { reqSecret with
    method := "POST", path := "/api/query", bodySize := 2048,
    bodyQueryField := some (some "SELECT 1") }

def reqOptionsSecret : Request := { reqSecret with method := "OPTIONS" }

def reqOptionsServices : Request := { reqServices with method := "OPTIONS" }

def reqOptionsBig : Request := { reqBigBody with method := "OPTIONS" }

/-- A tracker state with 400 stale timestamps (all at time 0) queued for
one IP and no active connection; reachable by 400 connections at time 0
that all closed. -/
def stStale : ConnState :=
  { activeConnections := fun _ => none,
    requestQueue := fun x => if x == "9.9.9.9" then some (List.replicate 400 0) else none }

/-- A tracker state with one queue entry, used by the C10 witness. -/
def stQueueW : ConnState :=
  { activeConnections := fun _ => none,
    requestQueue := fun x => if x == "8.8.8.8" then some [0] else none }

/-- A well-formed socket trace used by the C9 witness. -/
def evsW : List Ev :=
  [Ev.conn "a" 0, Ev.conn "a" 10, Ev.close "a", Ev.conn "b" 20, Ev.close "a"]

/-- A tracker state with a short time-ordered queue, used by the C5 witness. -/
def stW5 : ConnState :=
  { activeConnections := fun _ => none,
    requestQueue := fun x => if x == "7.7.7.7" then some [0, 50000] else none }

/-- Classification of the responses the server can produce, used to state
the error-shape claim: a JSON single-error-field body, one of the three
plain-text rejections (the whitelist 403, the rate-limiter 429, the
framework default 404 for a whitelisted path matching no file and no
route), or a non-error status. -/
def RespOk (req : Request) (r : Response) : Prop :=
  isJsonErrorBody r.body = true ∨
  (r.status = 403 ∧ r.body = RespBody.textBody "Access Forbidden") ∨
  (r.status = 429 ∧ r.body = RespBody.textBody limiterMessage) ∨
  (r.status = 404 ∧ r.body = RespBody.textBody ("Cannot " ++ req.method ++ " " ++ req.path)) ∨
  r.status < 400

/-- A middleware only ever responds with classified responses. -/
def MwOk (req : Request) (m : Middleware) : Prop :=
  ∀ env hs r, m env req hs = StepResult.respond r → RespOk req r

/-! # Theorems -/

/-- The express-rate-limit window counter after n requests is n: every
request increments it by one. -/
theorem hitsAfterRequests_eq (n : Nat) : hitsAfterRequests n = n := by
  induction n with
  | zero => rfl
  | succ n ih => simp [hitsAfterRequests, limiterIncr, ih]

/-- On a time-ordered queue, the prefix-trimming prune loop removes exactly
the entries below the cutoff. -/
theorem dropWhile_lt_of_sorted (c : Int) :
    ∀ q : List Int, q.Pairwise (fun a b => a ≤ b) →
      q.dropWhile (fun t => decide (t < c)) = q.filter (fun t => decide (c ≤ t)) := by
  intro q
  induction q with
  | nil => intro _; rfl
  | cons t rest ih =>
    intro hp
    rw [List.pairwise_cons] at hp
    obtain ⟨hall, hrest⟩ := hp
    by_cases ht : t < c
    · have h1 : decide (t < c) = true := by simp [ht]
      have h2 : decide (c ≤ t) = false := by simp; omega
      simp [List.dropWhile_cons, List.filter_cons, h1, h2, ih hrest]
    · have hct : c ≤ t := not_lt.mp ht
      have h1 : decide (t < c) = false := by simp [ht]
      have h2 : decide (c ≤ t) = true := by simp [hct]
      simp only [List.dropWhile_cons, List.filter_cons, h1, h2, if_neg, Bool.false_eq_true,
        not_false_eq_true, if_pos]
      rw [List.filter_eq_self.mpr]
      intro a ha
      simp only [decide_eq_true_eq]
      exact le_trans hct (hall a ha)

/-- C1 (counterexample): on a GET request for the non-whitelisted path
/secret the server does answer 403 with the plain-text body and no later
stage runs, but the whitelist gate is not applied before any other
processing: the CORS and security-header middlewares execute first (the
trace does not begin with the whitelist stage) and the 403 response
already carries the X-Frame-Options header those stages set. Moreover on
an OPTIONS request for the same non-whitelisted path the CORS middleware
terminates the request itself with 204, so the gate never runs at all and
the claimed 403 does not happen. -/
theorem c1_gate_not_first_counterexample :
    (handleRequest env0 reqSecret).1.status = 403 ∧
    (handleRequest env0 reqSecret).1.body = RespBody.textBody "Access Forbidden" ∧
    (handleRequest env0 reqSecret).2 = ["cors", "securityHeaders", "whitelist"] ∧
    (handleRequest env0 reqSecret).2.head? ≠ some "whitelist" ∧
    ("X-Frame-Options", "SAMEORIGIN") ∈ (handleRequest env0 reqSecret).1.headers ∧
    (handleRequest env0 reqOptionsSecret).1.status = 204 ∧
    (handleRequest env0 reqOptionsSecret).1.status ≠ 403 ∧
    (handleRequest env0 reqOptionsSecret).2 = ["cors"] := by
  refine ⟨by decide, by decide, by decide, by decide, by decide, by decide, by decide, by decide⟩

/-- C1 (amended): every non-OPTIONS request whose path matches none of the
whitelist patterns is answered 403 with the plain-text body Access
Forbidden and no stage after the whitelist gate executes; the gate runs
before every other gate and handler except the CORS and security-header
middlewares, which execute before it - the CORS middleware terminates
OPTIONS (preflight) requests itself with 204 before the gate, and for
other requests the two only add response headers, which is why the 403
response carries them. -/
theorem c1_whitelist_gate (env : Env) (req : Request)
    (h : allowedPath req.path = false)
    (hm : (req.method == "OPTIONS") = false) :
    handleRequest env req =
      ({ status := 403, body := RespBody.textBody "Access Forbidden",
         headers := [("Access-Control-Allow-Origin", "*"), ("X-Frame-Options", "SAMEORIGIN"),
           ("Content-Security-Policy", cspValue)] },
       ["cors", "securityHeaders", "whitelist"]) := by
  simp [handleRequest, serverStages, runStages, corsMw, securityHeadersMw, whitelistMw, h, hm]

/-- C1 witness: the amended theorem applied to the concrete GET request
for /secret. -/
theorem c1_whitelist_gate_witness :
    allowedPath reqSecret.path = false ∧
    (reqSecret.method == "OPTIONS") = false ∧
    handleRequest env0 reqSecret =
      ({ status := 403, body := RespBody.textBody "Access Forbidden",
         headers := [("Access-Control-Allow-Origin", "*"), ("X-Frame-Options", "SAMEORIGIN"),
           ("Content-Security-Policy", cspValue)] },
       ["cors", "securityHeaders", "whitelist"]) :=
  ⟨by decide, by decide, c1_whitelist_gate env0 reqSecret (by decide) (by decide)⟩

/-- C2: for GET /api/get-service/:nombre, when the service-by-name query
succeeds with zero rows the handler answers 404 with the JSON error body
Service not found and issues no second query; when it returns at least one
row and the product-lines query keyed by the id of that row succeeds, the
handler issues exactly that second query and answers 200 with the single
JSON object holding the two fields service and productLines. -/
theorem c2_get_service (env : Env) (hs : List (String × String)) (nombre : String)
    (hfail : env.dbFails (Query.serviceByName nombre) = false) :
    (env.dbRows (Query.serviceByName nombre) = [] →
      getServiceHandler env hs nombre =
        ({ status := 404, body := RespBody.jsonError "Service not found", headers := hs },
         [Query.serviceByName nombre])) ∧
    (∀ s rest, env.dbRows (Query.serviceByName nombre) = s :: rest →
      env.dbFails (Query.lineasByServicio (rowGetD s "id" "")) = false →
      getServiceHandler env hs nombre =
        ({ status := 200,
           body := RespBody.jsonServiceLines s
             (env.dbRows (Query.lineasByServicio (rowGetD s "id" ""))),
           headers := hs },
         [Query.serviceByName nombre, Query.lineasByServicio (rowGetD s "id" "")])) := by
  constructor
  · intro hrows
    simp [getServiceHandler, hfail, hrows]
  · intro s rest hrows hfail2
    simp [getServiceHandler, hfail, hrows, hfail2]

/-- C2 witness: the theorem applied to a concrete database with one
service row (id 7) and one product line for it, and to an unknown name. -/
theorem c2_get_service_witness :
    envW.dbRows (Query.serviceByName "geodesia") = serviceRowW :: [] ∧
    getServiceHandler envW [] "geodesia" =
      ({ status := 200,
         body := RespBody.jsonServiceLines serviceRowW
           (envW.dbRows (Query.lineasByServicio (rowGetD serviceRowW "id" ""))),
         headers := [] },
       [Query.serviceByName "geodesia", Query.lineasByServicio (rowGetD serviceRowW "id" "")]) ∧
    getServiceHandler envW [] "missing" =
      ({ status := 404, body := RespBody.jsonError "Service not found", headers := [] },
       [Query.serviceByName "missing"]) := by
  refine ⟨by decide, ?_, ?_⟩
  · exact (c2_get_service envW [] "geodesia" rfl).2 serviceRowW [] (by decide) rfl
  · exact (c2_get_service envW [] "missing" rfl).1 (by decide)

/-- C3 (counterexample): the string consisting of one space is a non-empty
string, yet POST /api/query answers 400 for it and issues no database
query, because the handler also rejects strings that are empty after
trimming; this refutes the claim that every non-empty string is forwarded
verbatim and answered 200. The same holds for the vertical-tab string
(character 0x0b), which JS trim also removes. -/
theorem c3_query_counterexample :
    (" " : String) ≠ "" ∧
    (postQueryHandler env0 [] (some (some " "))).1.status = 400 ∧
    (postQueryHandler env0 [] (some (some " "))).1.body = RespBody.jsonError "Invalid query." ∧
    (postQueryHandler env0 [] (some (some " "))).2 = [] ∧
    ("\x0b" : String) ≠ "" ∧
    (postQueryHandler env0 [] (some (some "\x0b"))).1.status = 400 ∧
    (postQueryHandler env0 [] (some (some "\x0b"))).2 = [] := by
  refine ⟨by decide, by decide, by decide, by decide, by decide, by decide, by decide⟩

/-- C3 (amended): POST /api/query answers 400 and issues no database call
when the query field is missing, not a string, the empty string, or a
string whose characters are all JS whitespace (empty after trimming);
every string that is non-empty after trimming is forwarded verbatim to
the pool, and when that query succeeds the response is 200 with exactly
the resulting rows as a JSON array. -/
theorem c3_query_validation (env : Env) (hs : List (String × String))
    (q : Option (Option String)) :
    ((q = none ∨ q = some none) →
      postQueryHandler env hs q =
        ({ status := 400, body := RespBody.jsonError "Invalid query.", headers := hs }, [])) ∧
    (∀ s, q = some (some s) →
      (s.data.isEmpty || s.data.all jsWhitespace) = true →
      postQueryHandler env hs q =
        ({ status := 400, body := RespBody.jsonError "Invalid query.", headers := hs }, [])) ∧
    (∀ s, q = some (some s) →
      (s.data.isEmpty || s.data.all jsWhitespace) = false →
      env.dbFails (Query.raw s) = false →
      postQueryHandler env hs q =
        ({ status := 200, body := RespBody.jsonRows (env.dbRows (Query.raw s)), headers := hs },
         [Query.raw s])) := by
  refine ⟨?_, ?_, ?_⟩
  · rintro (rfl | rfl) <;> rfl
  · rintro s rfl hws
    simp [postQueryHandler, hws]
  · rintro s rfl hws hfail
    simp [postQueryHandler, hws, hfail]

/-- C3 witness: the amended theorem applied to the non-blank query string
SELECT 1 against the empty-database environment. -/
theorem c3_query_validation_witness :
    (("SELECT 1" : String).data.isEmpty ||
      ("SELECT 1" : String).data.all jsWhitespace) = false ∧
    postQueryHandler env0 [] (some (some "SELECT 1")) =
      ({ status := 200, body := RespBody.jsonRows (env0.dbRows (Query.raw "SELECT 1")),
         headers := [] },
       [Query.raw "SELECT 1"]) :=
  ⟨by decide,
    (c3_query_validation env0 [] (some (some "SELECT 1"))).2.2 "SELECT 1" rfl (by decide) rfl⟩

/-- C4 (counterexample): an OPTIONS request to an /api/ path from a
client already over the ceiling is answered 204 by the CORS middleware
before the limiter runs - it is neither counted nor terminated with 429 -
so the claim does not hold for every request to /api/* paths. -/
theorem c4_preflight_counterexample :
    strStarts reqOptionsServices.path "/api/" = true ∧
    env429.maxHits ≤ env429.hits ∧
    (handleRequest env429 reqOptionsServices).1.status = 204 ∧
    (handleRequest env429 reqOptionsServices).1.status ≠ 429 ∧
    (handleRequest env429 reqOptionsServices).2 = ["cors"] := by
  refine ⟨by decide, by decide, by decide, by decide, by decide⟩

/-- C4 (amended): within one rate-limit window, each of the first ceiling
requests increments the per-IP counter and passes (the request numbered
n + 1 with n below the ceiling is allowed), the request after the
ceiling-th is rejected, a non-OPTIONS API request over the ceiling is
terminated by the pipeline with 429 and the plain-text limiter message,
and the limiter middleware passes every non-API request through untouched
(it is mounted on /api/ only). OPTIONS (preflight) requests are answered
204 by the CORS middleware before the limiter and are neither counted nor
limited. The ceiling is 500 in src/server.js and 100 in
src/middleware.js, both within the 100 to 500 range the claim states. -/
theorem c4_rate_limiter (maxHits n : Nat) (env : Env) (req : Request)
    (hn : n < maxHits) :
    limiterAllows maxHits (hitsAfterRequests n) = true ∧
    hitsAfterRequests (n + 1) = hitsAfterRequests n + 1 ∧
    limiterAllows maxHits (hitsAfterRequests maxHits) = false ∧
    (strStarts req.path "/api/" = false →
      ∀ hs, limiterMw env req hs = StepResult.next hs) ∧
    ((req.method == "OPTIONS") = false →
      allowedPath req.path = true → strStarts req.path "/api/" = true →
      env.busy = false → req.bodySize ≤ jsonBodyLimit → env.maxHits ≤ env.hits →
      (handleRequest env req).1.status = 429 ∧
      (handleRequest env req).1.body = RespBody.textBody limiterMessage) := by
  refine ⟨?_, ?_, ?_, ?_, ?_⟩
  · simp [limiterAllows, hitsAfterRequests_eq]
    omega
  · simp [hitsAfterRequests, limiterIncr]
  · simp [limiterAllows, hitsAfterRequests_eq]
  · intro hapi hs
    simp [limiterMw, hapi]
  · intro hmeth hwl hapi hbusy hsz hhits
    have hsz2 : ¬ jsonBodyLimit < req.bodySize := by omega
    have hover : env.maxHits < env.hits + 1 := by omega
    simp [handleRequest, serverStages, runStages, corsMw, securityHeadersMw, whitelistMw,
      toobusyMw, bodyParserMw, limiterMw, hmeth, hwl, hapi, hbusy, hsz2, hover]

/-- C4 witness: the theorem applied at ceiling 500 to a client that
already made 500 requests in the window, asking GET /api/get-services. -/
theorem c4_rate_limiter_witness :
    (0 : Nat) < 500 ∧
    ((handleRequest env429 reqServices).1.status = 429 ∧
      (handleRequest env429 reqServices).1.body = RespBody.textBody limiterMessage) :=
  ⟨by decide,
    (c4_rate_limiter 500 0 env429 reqServices (by decide)).2.2.2.2
      (by decide) (by decide) (by decide) rfl (by decide) (by decide)⟩

set_option maxRecDepth 8000 in
/-- C5 (counterexample): a connection event on a state whose queue holds
400 timestamps that are all older than 60 seconds destroys the socket
(the length check runs on the un-pruned queue, 401 entries), although the
condition stated by the claim - count over the cap or PRUNED queue length
over MAX_QUEUE_SIZE - is false there: after pruning, the queue holds only
the new timestamp. The state is reachable by 400 connections at time 0
that all closed. -/
theorem c5_destroy_counterexample :
    (onConnection stStale "9.9.9.9" 100000).2 = true ∧
    specDestroyCondition stStale "9.9.9.9" 100000 = false := by
  constructor
  · decide
  · decide

/-- C5 (amended): on a connection event from ip at time now, with the
stored queue time-ordered and its entries not in the future, the tracker
increments the active count for ip, appends now to the queue, destroys the
socket exactly when the incremented count exceeds MAX_CONNECTIONS_PER_IP
or the queue length BEFORE pruning (old entries plus the new one) exceeds
MAX_QUEUE_SIZE, and only after that decision prunes from the queue exactly
the entries older than 60 seconds; no HTTP response is involved at this
layer. -/
theorem c5_connection_event (st : ConnState) (ip : String) (now : Int)
    (q0 : List Int) (hq : st.requestQueue ip = some q0)
    (hsort : q0.Pairwise (fun a b => a ≤ b)) (hle : ∀ t ∈ q0, t ≤ now) :
    (onConnection st ip now).1.activeConnections ip =
        some (some (jsOr0 (st.activeConnections ip) + 1)) ∧
    (onConnection st ip now).1.requestQueue ip =
        some ((q0 ++ [now]).filter (fun t => decide (now - 60000 ≤ t))) ∧
    ((onConnection st ip now).2 = true ↔
      (MAX_CONNECTIONS_PER_IP < jsOr0 (st.activeConnections ip) + 1 ∨
        MAX_QUEUE_SIZE < q0.length + 1)) := by
  have hsort2 : (q0 ++ [now]).Pairwise (fun a b : Int => a ≤ b) := by
    rw [List.pairwise_append]
    refine ⟨hsort, by simp, ?_⟩
    intro a ha b hb
    simp at hb
    subst hb
    exact hle a ha
  refine ⟨?_, ?_, ?_⟩
  · simp [onConnection, fupd]
  · simp only [onConnection, fupd, hq]
    rw [if_pos (by simp)]
    rw [show pruneOld now (q0 ++ [now]) =
      (q0 ++ [now]).dropWhile (fun t => decide (t < now - 60000)) from rfl]
    rw [dropWhile_lt_of_sorted (now - 60000) (q0 ++ [now]) hsort2]
  · simp [onConnection, hq]

/-- C5 witness: the amended theorem applied to a state holding the
time-ordered queue with entries 0 and 50000 for one IP, at time 70000. -/
theorem c5_connection_event_witness :
    stW5.requestQueue "7.7.7.7" = some [0, 50000] ∧
    ((onConnection stW5 "7.7.7.7" 70000).1.activeConnections "7.7.7.7" =
        some (some (jsOr0 (stW5.activeConnections "7.7.7.7") + 1)) ∧
      (onConnection stW5 "7.7.7.7" 70000).1.requestQueue "7.7.7.7" =
        some (([0, 50000] ++ [70000]).filter (fun t => decide (70000 - 60000 ≤ t))) ∧
      ((onConnection stW5 "7.7.7.7" 70000).2 = true ↔
        (MAX_CONNECTIONS_PER_IP < jsOr0 (stW5.activeConnections "7.7.7.7") + 1 ∨
          MAX_QUEUE_SIZE < ([0, 50000] : List Int).length + 1))) :=
  ⟨by decide,
    c5_connection_event stW5 "7.7.7.7" 70000 [0, 50000] (by decide) (by decide) (by decide)⟩

/-- C6: a request routed to a handler that outlasts the 10 second budget
is answered 500 with the generic JSON error of the catch-all error
middleware, not 408: connect-timeout passes a response-timeout error to
the error-handling middleware when the budget expires mid-handler, while
the guard middleware that would answer 408 already ran (synchronously,
with req.timedout still false) before the handler started. The claimed
exactly-one-408 behaviour never happens for such requests. -/
theorem c6_timeout_answers_500_not_408 :
    (handleRequest envSlow reqPresentacion).1.status = 500 ∧
    (handleRequest envSlow reqPresentacion).1.body =
      RespBody.jsonError "Internal server error." ∧
    (handleRequest envSlow reqPresentacion).1.status ≠ 408 := by
  refine ⟨by decide, by decide, by decide⟩

/-- C7 (counterexample): a POST /api/query request with a 2048-byte body
is rejected before any route handler runs, but with status 500 - the
catch-all error middleware replaces the 413 the parsing layer raised - so
the response is not in the 413/400 class the claim states. And an OPTIONS
request with the same oversized body is not rejected at all: the CORS
middleware answers it 204 before the body parser ever runs. -/
theorem c7_oversized_counterexample :
    (handleRequest env0 reqBigBody).1.status = 500 ∧
    ¬ (400 ≤ (handleRequest env0 reqBigBody).1.status ∧
        (handleRequest env0 reqBigBody).1.status < 500) ∧
    "routes" ∉ (handleRequest env0 reqBigBody).2 ∧
    "static" ∉ (handleRequest env0 reqBigBody).2 ∧
    jsonBodyLimit < reqOptionsBig.bodySize ∧
    (handleRequest env0 reqOptionsBig).1.status = 204 ∧
    (handleRequest env0 reqOptionsBig).2 = ["cors"] := by
  refine ⟨by decide, by decide, by decide, by decide, by decide, by decide, by decide⟩

/-- C7 (amended): every admitted non-OPTIONS request (whitelisted path,
server not busy) whose body exceeds the 1 KB cap is rejected at the
body-parsing layer before any route handler or later stage sees it, but
the response the client receives is the 500 JSON error of the catch-all
error middleware, which replaces the 413 error status raised by the
parser; OPTIONS (preflight) requests are answered 204 by the CORS
middleware before the body parser, so their bodies are never parsed or
rejected. -/
theorem c7_oversized_body (env : Env) (req : Request)
    (hmeth : (req.method == "OPTIONS") = false)
    (hwl : allowedPath req.path = true) (hbusy : env.busy = false)
    (hsz : jsonBodyLimit < req.bodySize) :
    handleRequest env req =
      ({ status := 500, body := RespBody.jsonError "Internal server error.",
         headers := [("Access-Control-Allow-Origin", "*"), ("X-Frame-Options", "SAMEORIGIN"),
           ("Content-Security-Policy", cspValue)] },
       ["cors", "securityHeaders", "whitelist", "toobusy", "bodyParser"]) := by
  simp [handleRequest, serverStages, runStages, corsMw, securityHeadersMw, whitelistMw,
    toobusyMw, bodyParserMw, globalErrorHandler, hmeth, hwl, hbusy, hsz]

/-- C7 witness: the amended theorem applied to the concrete oversized
POST request. -/
theorem c7_oversized_body_witness :
    (reqBigBody.method == "OPTIONS") = false ∧
    allowedPath reqBigBody.path = true ∧ env0.busy = false ∧
    jsonBodyLimit < reqBigBody.bodySize ∧
    handleRequest env0 reqBigBody =
      ({ status := 500, body := RespBody.jsonError "Internal server error.",
         headers := [("Access-Control-Allow-Origin", "*"), ("X-Frame-Options", "SAMEORIGIN"),
           ("Content-Security-Policy", cspValue)] },
       ["cors", "securityHeaders", "whitelist", "toobusy", "bodyParser"]) :=
  ⟨by decide, by decide, rfl, by decide,
    c7_oversized_body env0 reqBigBody (by decide) (by decide) rfl (by decide)⟩

/-- The simple one-query handlers produce a 200 or a 500 JSON error. -/
theorem respOk_simpleQueryRoute (req : Request) (env : Env) (hs : List (String × String))
    (q : Query) (msg : String) : RespOk req (simpleQueryRoute env hs q msg).1 := by
  unfold simpleQueryRoute
  by_cases hf : env.dbFails q = true
  · simp [hf, RespOk, isJsonErrorBody]
  · simp [hf, RespOk, isJsonErrorBody]

/-- The get-service handler produces a 200, a 404 JSON error or a 500
JSON error. -/
theorem respOk_getService (req : Request) (env : Env) (hs : List (String × String))
    (nombre : String) : RespOk req (getServiceHandler env hs nombre).1 := by
  unfold getServiceHandler
  by_cases h1 : env.dbFails (Query.serviceByName nombre) = true
  · simp [h1, RespOk, isJsonErrorBody]
  · cases hr : env.dbRows (Query.serviceByName nombre) with
    | nil => simp [h1, hr, RespOk, isJsonErrorBody]
    | cons s rest =>
      by_cases h2 : env.dbFails (Query.lineasByServicio (rowGetD s "id" "")) = true
      · simp [h1, hr, h2, RespOk, isJsonErrorBody]
      · simp [h1, hr, h2, RespOk, isJsonErrorBody]

/-- The get-noticia handler produces a 200, a 404 JSON error or a 500
JSON error. -/
theorem respOk_getNoticia (req : Request) (env : Env) (hs : List (String × String))
    (id : String) : RespOk req (getNoticiaHandler env hs id).1 := by
  unfold getNoticiaHandler
  by_cases h1 : env.dbFails (Query.noticiaById id) = true
  · simp [h1, RespOk, isJsonErrorBody]
  · cases hr : env.dbRows (Query.noticiaById id) with
    | nil => simp [h1, hr, RespOk, isJsonErrorBody]
    | cons row rest => simp [h1, hr, RespOk, isJsonErrorBody]

/-- The generic query handler produces a 200, a 400 JSON error or a 500
JSON error. -/
theorem respOk_postQuery (req : Request) (env : Env) (hs : List (String × String))
    (body : Option (Option String)) : RespOk req (postQueryHandler env hs body).1 := by
  unfold postQueryHandler
  match body with
  | none => simp [RespOk, isJsonErrorBody]
  | some none => simp [RespOk, isJsonErrorBody]
  | some (some s) =>
    by_cases h1 : (s.data.isEmpty || s.data.all jsWhitespace) = true
    · simp [h1, RespOk, isJsonErrorBody]
    · by_cases h2 : env.dbFails (Query.raw s) = true
      · simp [h1, h2, RespOk, isJsonErrorBody]
      · simp [h1, h2, RespOk, isJsonErrorBody]

/-- Every route handler produces a classified response: a 200, or a JSON
single-error-field body (400, 404 or 500). -/
theorem respOk_runRoute (req : Request) (env : Env) (hs : List (String × String)) :
    ∀ r : Route, RespOk req (runRoute env req hs r).1 := by
  intro r
  cases r with
  | config => simp [runRoute, RespOk, isJsonErrorBody]
  | getNoticia id => exact respOk_getNoticia req env hs id
  | getService nombre => exact respOk_getService req env hs nombre
  | postQuery => exact respOk_postQuery req env hs req.bodyQueryField
  | _ => exact respOk_simpleQueryRoute req env hs _ _

/-- Every middleware of the server.js pipeline responds, when it responds
at all, with a classified response. -/
theorem serverStages_mwOk (req : Request) : ∀ p ∈ serverStages, MwOk req p.2 := by
  intro p hp
  simp only [serverStages, List.mem_cons, List.not_mem_nil, or_false] at hp
  rcases hp with rfl | rfl | rfl | rfl | rfl | rfl | rfl | rfl | rfl | rfl <;>
    intro env hs r hm
  · have hm2 : corsMw env req hs = StepResult.respond r := hm
    unfold corsMw at hm2
    split at hm2 <;> cases hm2 <;> simp [RespOk, isJsonErrorBody]
  · have hm2 : securityHeadersMw env req hs = StepResult.respond r := hm
    simp [securityHeadersMw] at hm2
  · have hm2 : whitelistMw env req hs = StepResult.respond r := hm
    unfold whitelistMw at hm2
    split at hm2 <;> cases hm2 <;> simp [RespOk, isJsonErrorBody]
  · have hm2 : toobusyMw env req hs = StepResult.respond r := hm
    unfold toobusyMw at hm2
    split at hm2 <;> cases hm2 <;> simp [RespOk, isJsonErrorBody]
  · have hm2 : bodyParserMw env req hs = StepResult.respond r := hm
    unfold bodyParserMw at hm2
    split at hm2 <;> cases hm2
  · have hm2 : limiterMw env req hs = StepResult.respond r := hm
    unfold limiterMw at hm2
    split at hm2 <;> (try split at hm2) <;> cases hm2 <;> simp [RespOk, isJsonErrorBody]
  · have hm2 : timeoutGuardMw env req hs = StepResult.respond r := hm
    unfold timeoutGuardMw at hm2
    split at hm2 <;> cases hm2 <;> simp [RespOk, isJsonErrorBody]
  · have hm2 : htmlInjectorMw env req hs = StepResult.respond r := hm
    simp [htmlInjectorMw] at hm2
  · have hm2 : staticMw env req hs = StepResult.respond r := hm
    unfold staticMw at hm2
    split at hm2 <;> (try split at hm2) <;> cases hm2 <;> simp [RespOk, isJsonErrorBody]
  · have hm2 : routeMw env req hs = StepResult.respond r := hm
    unfold routeMw at hm2
    split at hm2
    · simp at hm2
    · split at hm2
      · simp at hm2
      · rename_i rt _ _
        have hr := respOk_runRoute req env hs rt
        simp only [StepResult.respond.injEq] at hm2
        rwa [hm2] at hr

/-- The pipeline runner preserves response classification: if every stage
middleware only responds with classified responses, the final response is
classified (the empty-stage fallback is the framework default 404, the
raise path lands in the 500 JSON of the error-handling middleware). -/
theorem runStages_respOk (req : Request) :
    ∀ (stages : List (String × Middleware)) (env : Env) (hs : List (String × String)),
      (∀ p ∈ stages, MwOk req p.2) →
      RespOk req (runStages stages env req hs).1 := by
  intro stages
  induction stages with
  | nil =>
    intro env hs _
    simp [runStages, RespOk]
  | cons p rest ih =>
    intro env hs hall
    obtain ⟨n, m⟩ := p
    simp only [runStages]
    cases hm : m env req hs with
    | respond r => exact hall (n, m) (by simp) env hs r hm
    | raise s hs2 => simp [globalErrorHandler, RespOk, isJsonErrorBody]
    | next hs2 =>
      exact ih env hs2 (fun q hq => hall q (by simp [hq]))

/-- C8 (counterexample): the rate-limited request receives a 429 whose
body is the plain-text limiter message, not a JSON error object, and it
does not come from the whitelist gate; this refutes the claim that the
whitelist 403 is the sole non-JSON error response. -/
theorem c8_error_body_counterexample :
    400 ≤ (handleRequest env429 reqServices).1.status ∧
    (handleRequest env429 reqServices).1.status ≠ 403 ∧
    isJsonErrorBody (handleRequest env429 reqServices).1.body = false ∧
    (handleRequest env429 reqServices).1.body = RespBody.textBody limiterMessage := by
  refine ⟨by decide, by decide, by decide, by decide⟩

/-- C8 (amended): every error response (status at least 400) the server
produces is a JSON object with a single error string field, except three
plain-text replies: the whitelist gate 403 Access Forbidden, the rate
limiter 429 (express-rate-limit sends its string message as text), and
the framework default 404 Cannot METHOD path for whitelisted paths that
match no static file and no route. -/
theorem c8_error_responses (env : Env) (req : Request)
    (h : 400 ≤ (handleRequest env req).1.status) :
    isJsonErrorBody (handleRequest env req).1.body = true ∨
    ((handleRequest env req).1.status = 403 ∧
      (handleRequest env req).1.body = RespBody.textBody "Access Forbidden") ∨
    ((handleRequest env req).1.status = 429 ∧
      (handleRequest env req).1.body = RespBody.textBody limiterMessage) ∨
    ((handleRequest env req).1.status = 404 ∧
      (handleRequest env req).1.body =
        RespBody.textBody ("Cannot " ++ req.method ++ " " ++ req.path)) := by
  have hok := runStages_respOk req serverStages env [] (serverStages_mwOk req)
  rw [show runStages serverStages env req [] = handleRequest env req from rfl] at hok
  rcases hok with hok | hok | hok | hok | hok
  · exact Or.inl hok
  · exact Or.inr (Or.inl hok)
  · exact Or.inr (Or.inr (Or.inl hok))
  · exact Or.inr (Or.inr (Or.inr hok))
  · omega

/-- C8 witness: the amended theorem applied to the 403 request for the
non-whitelisted path /secret. -/
theorem c8_error_responses_witness :
    400 ≤ (handleRequest env0 reqSecret).1.status ∧
    (isJsonErrorBody (handleRequest env0 reqSecret).1.body = true ∨
      ((handleRequest env0 reqSecret).1.status = 403 ∧
        (handleRequest env0 reqSecret).1.body = RespBody.textBody "Access Forbidden") ∨
      ((handleRequest env0 reqSecret).1.status = 429 ∧
        (handleRequest env0 reqSecret).1.body = RespBody.textBody limiterMessage) ∨
      ((handleRequest env0 reqSecret).1.status = 404 ∧
        (handleRequest env0 reqSecret).1.body =
          RespBody.textBody ("Cannot " ++ reqSecret.method ++ " " ++ reqSecret.path))) :=
  ⟨by decide, c8_error_responses env0 reqSecret (by decide)⟩

/-- An IP with an open socket occurs positively in the open multiset. -/
theorem hasIp_countIp (ip : String) :
    ∀ opens : List String, hasIp ip opens = true → 0 < countIp ip opens := by
  intro opens
  induction opens with
  | nil => intro h; simp [hasIp] at h
  | cons x xs ih =>
    intro h
    simp only [hasIp, Bool.or_eq_true] at h
    by_cases hx : (x == ip) = true
    · simp [countIp, hx]
    · simp only [countIp, hx, if_false]
      rcases h with h | h
      · exact absurd h hx
      · simpa using ih h

/-- Closing one socket of an IP lowers its open count by one. -/
theorem countIp_removeOne_self (ip : String) :
    ∀ opens : List String, countIp ip (removeOne ip opens) = countIp ip opens - 1 := by
  intro opens
  induction opens with
  | nil => simp [removeOne, countIp]
  | cons x xs ih =>
    by_cases hx : (x == ip) = true
    · simp [removeOne, countIp, hx]
    · simp [removeOne, countIp, hx, ih]

/-- Closing a socket of one IP leaves every other count unchanged. -/
theorem countIp_removeOne_ne (ip ip2 : String) (hne : (ip2 == ip) = false) :
    ∀ opens : List String, countIp ip2 (removeOne ip opens) = countIp ip2 opens := by
  intro opens
  induction opens with
  | nil => rfl
  | cons x xs ih =>
    by_cases hx : (x == ip) = true
    · have hxip : x = ip := by simpa using hx
      have hx2 : (x == ip2) = false := by
        subst hxip
        have : ip2 ≠ x := by simpa using hne
        simp [this.symm]
      simp [removeOne, countIp, hx, hx2]
    · simp [removeOne, countIp, hx, ih]

/-- The falsy-defaulted read of a well-formed tracker entry is the open
count itself. -/
theorem jsOr0_countVal (n : Nat) : jsOr0 (countVal n) = (n : Int) := by
  unfold countVal
  split
  · rfl
  · simp [jsOr0]
    omega

/-- A well-formed tracker entry satisfies the decidable entry invariant. -/
theorem entryOk_countVal (n : Nat) : entryOk (countVal n) n = true := by
  unfold countVal
  split
  · rename_i h
    simp [entryOk]
    omega
  · rename_i h
    have : n = 0 := by omega
    subst this
    rfl

/-- Reduction of the close handler when the entry holds an ordinary
number. -/
theorem onClose_entry (st : ConnState) (ip : String) (c : Int)
    (hc : st.activeConnections ip = some (some c)) :
    onClose st ip =
      if c ≤ 1 then { st with activeConnections := fupd st.activeConnections ip none }
      else { st with activeConnections := fupd st.activeConnections ip (some (some (c - 1))) } := by
  unfold onClose
  rw [hc]

/-- The tracker invariant of src/server.js: along any well-formed socket
trace, the per-IP entry of activeConnections is exactly the number of the
IP's currently open sockets when positive, and absent when it is zero.
Proved by induction over the trace, generalizing over the multiset of
already-open sockets. -/
theorem tracker_invariant :
    ∀ (evs : List Ev) (opens : List String) (st : ConnState),
      validFrom opens evs = true →
      (∀ ip, st.activeConnections ip = countVal (countIp ip opens)) →
      ∀ ip, (connRun st evs).activeConnections ip =
        countVal (countIp ip (openAfter opens evs)) := by
  intro evs
  induction evs with
  | nil =>
    intro opens st _ hinv ip
    simpa [connRun, openAfter] using hinv ip
  | cons e evs ih =>
    intro opens st hv hinv ip
    cases e with
    | conn ipc now =>
      simp only [validFrom] at hv
      simp only [connRun, connStep, openAfter]
      apply ih (ipc :: opens) _ hv _ ip
      intro ip2
      simp only [onConnection, fupd]
      by_cases h2 : (ip2 == ipc) = true
      · have hip : ip2 = ipc := by simpa using h2
        subst hip
        rw [if_pos h2, hinv ip2, jsOr0_countVal]
        simp only [countIp, beq_self_eq_true, if_pos]
        rw [show countVal (1 + countIp ip2 opens) =
          some (some ((1 + countIp ip2 opens : Nat) : Int)) from by
            unfold countVal; rw [if_pos (by omega)]]
        push_cast
        ring_nf
      · rw [if_neg (by simpa using h2), hinv ip2]
        have h3 : (ipc == ip2) = false := by
          have : ip2 ≠ ipc := by simpa using h2
          simp [this.symm]
        simp [countIp, h3]
    | close ipc =>
      simp only [validFrom, Bool.and_eq_true] at hv
      obtain ⟨hhas, hv2⟩ := hv
      simp only [connRun, connStep, openAfter]
      apply ih (removeOne ipc opens) _ hv2 _ ip
      intro ip2
      have hpos : 0 < countIp ipc opens := hasIp_countIp ipc opens hhas
      have hc : st.activeConnections ipc = some (some ((countIp ipc opens : Nat) : Int)) := by
        rw [hinv ipc]
        unfold countVal
        rw [if_pos hpos]
      rw [onClose_entry st ipc _ hc]
      by_cases h1 : countIp ipc opens = 1
      · rw [if_pos (by rw [h1]; norm_num)]
        simp only [fupd]
        by_cases h2 : (ip2 == ipc) = true
        · have hip : ip2 = ipc := by simpa using h2
          subst hip
          rw [if_pos h2, countIp_removeOne_self, h1]
          rfl
        · rw [if_neg (by simpa using h2), hinv ip2,
            countIp_removeOne_ne ipc ip2 (by simpa using h2)]
      · rw [if_neg (by
          have : 2 ≤ countIp ipc opens := by omega
          push_cast
          omega)]
        simp only [fupd]
        by_cases h2 : (ip2 == ipc) = true
        · have hip : ip2 = ipc := by simpa using h2
          subst hip
          rw [if_pos h2, countIp_removeOne_self]
          rw [show countVal (countIp ip2 opens - 1) =
            some (some ((countIp ip2 opens - 1 : Nat) : Int)) from by
              unfold countVal; rw [if_pos (by omega)]]
          congr 2
          push_cast [Nat.cast_sub (by omega : 1 ≤ countIp ip2 opens)]
          ring
        · rw [if_neg (by simpa using h2), hinv ip2,
            countIp_removeOne_ne ipc ip2 (by simpa using h2)]

/-- C9: after any well-formed sequence of socket open and close events
from the fresh state, every entry of the activeConnections map satisfies
the invariant the claim states: the stored count is a positive number
equal to the number of currently open sockets of that IP (so it is never
negative and never NaN), and the entry is absent exactly when the count
returned to zero. src/middleware.js orders the decrement and the deletion
check differently but observably agrees on well-formed traces. -/
theorem c9_active_count (evs : List Ev) (ip : String)
    (hv : validFrom [] evs = true) :
    entryOk ((connRun initConnState evs).activeConnections ip)
      (countIp ip (openAfter [] evs)) = true := by
  have h := tracker_invariant evs [] initConnState hv (fun ip2 => rfl) ip
  rw [h]
  exact entryOk_countVal _

/-- C9 witness: the theorem applied to a concrete trace in which the IP a
opens two sockets, closes both, and another IP connects in between. -/
theorem c9_active_count_witness :
    validFrom [] evsW = true ∧
    entryOk ((connRun initConnState evsW).activeConnections "a")
      (countIp "a" (openAfter [] evsW)) = true :=
  ⟨by decide, c9_active_count evsW "a" (by decide)⟩

/-- One tracker event never removes a requestQueue key. -/
theorem requestQueue_isSome_step (st : ConnState) (e : Ev) (ip : String)
    (h : (st.requestQueue ip).isSome = true) :
    ((connStep st e).requestQueue ip).isSome = true := by
  cases e with
  | conn ipc now =>
    simp only [connStep, onConnection, fupd]
    by_cases h2 : (ip == ipc) = true
    · simp [h2]
    · simp only [h2, if_false]
      exact h
  | close ipc =>
    have hrq : (onClose st ipc).requestQueue = st.requestQueue := by
      unfold onClose
      split
      · split
        · rfl
        · rfl
      · rfl
      · rfl
    simpa [connStep, hrq] using h

/-- A whole trace never removes a requestQueue key. -/
theorem requestQueue_isSome_run :
    ∀ (evs : List Ev) (st : ConnState) (ip : String),
      (st.requestQueue ip).isSome = true →
      ((connRun st evs).requestQueue ip).isSome = true := by
  intro evs
  induction evs with
  | nil => intro st ip h; exact h
  | cons e evs ih =>
    intro st ip h
    exact ih _ _ (requestQueue_isSome_step st e ip h)

/-- C10: a connection event creates (or keeps) the requestQueue entry of
its IP, the close handler leaves the requestQueue map entirely untouched
(it only updates activeConnections), and once present a requestQueue key
survives every further event: the set of tracked IPs grows monotonically
over the process lifetime. -/
theorem c10_request_queue_monotone (st : ConnState) (evs : List Ev)
    (ip : String) (now : Int) :
    ((connStep st (Ev.conn ip now)).requestQueue ip).isSome = true ∧
    (onClose st ip).requestQueue = st.requestQueue ∧
    ((st.requestQueue ip).isSome = true →
      ((connRun st evs).requestQueue ip).isSome = true) := by
  refine ⟨?_, ?_, ?_⟩
  · simp [connStep, onConnection, fupd]
  · unfold onClose
    split
    · split
      · rfl
      · rfl
    · rfl
    · rfl
  · exact requestQueue_isSome_run evs st ip

/-- C10 witness: the theorem applied to a state tracking one IP, across a
trace in which another IP connects and the tracked IP closes its socket. -/
theorem c10_request_queue_monotone_witness :
    (stQueueW.requestQueue "8.8.8.8").isSome = true ∧
    ((connRun stQueueW [Ev.conn "x" 5, Ev.close "8.8.8.8"]).requestQueue "8.8.8.8").isSome
      = true :=
  ⟨by decide,
    (c10_request_queue_monotone stQueueW [Ev.conn "x" 5, Ev.close "8.8.8.8"] "8.8.8.8" 0).2.2
      (by decide)⟩

end GeocubaPortal
